import Mathlib

/-!
Shallow embedding of the SmartGallery backend (src/api/index.js).

The server is a set of stateless Express request handlers over a document
store holding `User` and `Photo` documents; comments are embedded inside
their photo and likes are a list of user references.  We model the store as
Lean lists, each HTTP handler as a function from the store (plus the request
data) to a response paired with the updated store, and the external
collaborators (bcrypt, jsonwebtoken, cloudinary, the unique-email index of
the User model) from the spec, since their code is not part of this
repository.
-/

namespace SmartGallery

/-- A stored user document: `{username, email, password}` plus its id
(src User model; the password field holds the bcrypt hash). -/
structure User where
  id : Nat
  username : String
  email : String
  password : String
deriving Repr, DecidableEq

/-- A comment subdocument embedded in a photo: `{text, user}` plus the
subdocument id mongoose assigns (src/api/index.js comment push sites). -/
structure Comment where
  id : Nat
  text : String
  user : Nat
deriving Repr, DecidableEq

/-- A stored photo document: `{url, description, user, likes, comments}`
plus its id (src Photo model as used by the handlers: `likes` is a list of
user ids, `comments` an ordered list of embedded comments). -/
structure Photo where
  id : Nat
  url : String
  description : String
  user : Nat
  likes : List Nat
  comments : List Comment
deriving Repr, DecidableEq

/-- An HTTP handler outcome: `res.json(ok-value)` or
`res.status(code).json({success:false, message})`. -/
inductive Resp (α : Type) where
  | ok (val : α)
  | err (status : Nat) (message : String)
deriving Repr, DecidableEq

/-- `Photo.findById(id)`: the store returns the document with the given id,
if any. -/
def findPhoto (photos : List Photo) (pid : Nat) : Option Photo :=
  photos.find? (fun p => p.id == pid)

/-- `photo.save()` on a fetched-and-modified document: the store replaces
the document having that id. -/
def replacePhoto (photos : List Photo) (p' : Photo) : List Photo :=
  photos.map (fun q => if q.id == p'.id then p' else q)

/-- Modelled from the spec: bcrypt (external library, not in src/).  The
spec requires an irreversible salted hash; for the claims below only the
equations `compare pw (hash pw) = true` and `compare pw h = false`
otherwise matter, so the hash is abstracted as an injective tagging. -/
def bcryptHash (pw : String) : String :=
  "bcrypt$" ++ pw

/-- Modelled from the spec: `bcrypt.compare(pw, hash)` succeeds exactly
when the hash is the hash of the submitted password. -/
def bcryptCompare (pw hash : String) : Bool :=
  hash == bcryptHash pw

/-- Modelled from the spec: a token issued by jsonwebtoken (external
library, not in src/) is signed and self-contained: it carries the payload
(`{id: userId}`), the signing secret and the expiry instant. -/
structure Token where
  payloadId : Nat
  secret : String
  exp : Nat
deriving Repr, DecidableEq

/-- `jwt.sign({id}, secret, {expiresIn: "2h"})`: the expiry is the issue
instant plus 2 hours (7200 seconds). -/
def jwtSign (userId : Nat) (secret : String) (now : Nat) : Token :=
  { payloadId := userId, secret := secret, exp := now + 7200 }

/-- The possible values of the `authorization` request header when it is
present: the bare token string, the token with a `"Bearer "` prefix, or an
arbitrary other string. -/
inductive AuthHeaderVal where
  | bare (t : Token)
  | bearerPrefixed (t : Token)
  | garbage (s : String)
deriving Repr, DecidableEq

/-- Modelled from the spec: `jwt.verify(str, secret)` succeeds only on the
exact string produced by `jwt.sign` with the same secret and a live expiry;
a `"Bearer "`-prefixed token or any other string is not a well-formed
signed token and fails verification. -/
def jwtVerify (v : AuthHeaderVal) (secret : String) (now : Nat) : Option Nat :=
  match v with
  | .bare t => if t.secret = secret ∧ now < t.exp then some t.payloadId else none
  | .bearerPrefixed _ => none
  | .garbage _ => none

/-- Outcome of the auth gate: either the decoded identity is injected into
the request, or the request is short-circuited with an error response. -/
inductive AuthResult where
  | authorized (userId : Nat)
  | denied (status : Nat) (message : String)
deriving Repr, DecidableEq

/-- `authMiddleware` (src/api/index.js lines 74-83): reads the raw
`authorization` header, answers 401 if it is absent, passes the raw value
to `jwt.verify` (no prefix stripping) and answers 403 if verification
fails. -/
def authMiddleware (hdr : Option AuthHeaderVal) (secret : String) (now : Nat) :
    AuthResult :=
  match hdr with
  | none => .denied 401 "No token"
  | some v =>
    match jwtVerify v secret now with
    | none => .denied 403 "Invalid token"
    | some uid => .authorized uid

/-- Modelled from the spec: the User model (not in src/) declares `email`
unique, so `user.save()` of a document whose email is already stored fails
with a duplicate-key error, leaving the collection unchanged. -/
def saveUser (users : List User) (u : User) : Except String (List User) :=
  if users.any (fun v => v.email == u.email) then .error "DuplicateEmail"
  else .ok (users ++ [u])

/-- `POST /signup` (lines 96-106): hash the password, save the new user;
on a save error answer 500 with the error message. -/
def signupHandler (users : List User) (newId : Nat)
    (username email password : String) : Resp String × List User :=
  let hashed := bcryptHash password
  match saveUser users { id := newId, username := username, email := email,
                         password := hashed } with
  | .ok users' => (.ok "User registered", users')
  | .error e => (.err 500 e, users)

/-- Response of `POST /login`: `{success, token, userId, username}` or an
error status with message. -/
inductive LoginResp where
  | ok (token : Token) (userId : Nat) (username : String)
  | err (status : Nat) (message : String)
deriving Repr, DecidableEq

/-- `POST /login` (lines 108-122): look the user up by email (400 "User
not found" if absent), compare the password (400 "Invalid credentials" on
mismatch), then sign a 2-hour token over `{id: user._id}`. -/
def loginHandler (users : List User) (email password secret : String)
    (now : Nat) : LoginResp :=
  match users.find? (fun u => u.email == email) with
  | none => .err 400 "User not found"
  | some user =>
    if bcryptCompare password user.password then
      .ok (jwtSign user.id secret now) user.id user.username
    else
      .err 400 "Invalid credentials"

/-- `POST /upload` (lines 125-138): forward the file to cloudinary; on a
transport error the catch block answers 500 and nothing is saved; on
success a new photo with the returned `secure_url` is saved.  The
cloudinary call is passed in as its result, an `Except`. -/
def uploadHandler (photos : List Photo) (uploadResult : Except String String)
    (callerId newId : Nat) (description : Option String) :
    Resp Photo × List Photo :=
  match uploadResult with
  | .error e => (.err 500 e, photos)
  | .ok url =>
    let newPhoto : Photo :=
      { id := newId, url := url, description := description.getD "",
        user := callerId, likes := [], comments := [] }
    (.ok newPhoto, photos ++ [newPhoto])

/-- `PUT /photos/:id/description` (lines 173-186): 404 if the photo is
absent, 403 if the caller is not the owner, otherwise overwrite the
description and save. -/
def updateDescription (photos : List Photo) (pid callerId : Nat)
    (newText : String) : Resp Photo × List Photo :=
  match findPhoto photos pid with
  | none => (.err 404 "Photo not found", photos)
  | some photo =>
    if photo.user ≠ callerId then
      (.err 403 "Not allowed", photos)
    else
      let photo' := { photo with description := newText }
      (.ok photo', replacePhoto photos photo')

/-- The like mutation of `POST /photos/:id/like` (lines 193-198):
`includes` then `pull` (removes every matching entry) or `push`
(appends). -/
def toggleLike (likes : List Nat) (uid : Nat) : List Nat :=
  if likes.contains uid then likes.filter (fun v => v != uid)
  else likes ++ [uid]

/-- `POST /photos/:id/like` (lines 188-204): 404 if the photo is absent,
otherwise toggle the caller in `likes`, save, and answer the resulting
like count. -/
def likeHandler (photos : List Photo) (pid callerId : Nat) :
    Resp Nat × List Photo :=
  match findPhoto photos pid with
  | none => (.err 404 "Photo not found", photos)
  | some photo =>
    let photo' := { photo with likes := toggleLike photo.likes callerId }
    (.ok photo'.likes.length, replacePhoto photos photo')

/-- `DELETE /photos/:id` (lines 240-252): 404 if the photo is absent, 403
if the caller is not the owner, otherwise `photo.deleteOne()` removes the
document (and with it its embedded comments). -/
def deletePhoto (photos : List Photo) (pid callerId : Nat) :
    Resp String × List Photo :=
  match findPhoto photos pid with
  | none => (.err 404 "Photo not found", photos)
  | some photo =>
    if photo.user ≠ callerId then
      (.err 403 "Not allowed", photos)
    else
      (.ok "Photo deleted", photos.filter (fun q => q.id != pid))

/-- How a comment's `user` field appears in a JSON response: either the
raw ObjectId, or (after `.populate("comments.user", "username")`) the
referenced user's id and username, or null when the reference does not
resolve. -/
inductive RespUser where
  | raw (id : Nat)
  | populated (id : Nat) (username : String)
  | nullRef
deriving Repr, DecidableEq

/-- A comment as serialized in a response. -/
structure RespComment where
  id : Nat
  text : String
  user : RespUser
deriving Repr, DecidableEq

/-- `.populate("comments.user", "username")` applied to one reference. -/
def populateUser (users : List User) (uid : Nat) : RespUser :=
  match users.find? (fun u => u.id == uid) with
  | some u => .populated uid u.username
  | none => .nullRef

/-- First registration of `POST /photos/:id/comment` (lines 152-170): 404
if the photo is absent; push `{text, user: caller}`, save, re-fetch the
photo with populated comment authors and answer its comments.  The inner
404 branch mirrors the crash-to-catch path were the re-fetch to miss. -/
def commentHandlerFirst (users : List User) (photos : List Photo)
    (pid callerId newCommentId : Nat) (text : String) :
    Resp (List RespComment) × List Photo :=
  match findPhoto photos pid with
  | none => (.err 404 "Photo not found", photos)
  | some photo =>
    let photo' := { photo with
      comments := photo.comments ++ [{ id := newCommentId, text := text,
                                       user := callerId }] }
    let photos' := replacePhoto photos photo'
    match findPhoto photos' pid with
    | none => (.err 500 "TypeError", photos')
    | some updated =>
      (.ok (updated.comments.map (fun c =>
          { id := c.id, text := c.text, user := populateUser users c.user })),
       photos')

/-- Second registration of `POST /photos/:id/comment` (lines 207-219): 404
if the photo is absent; push `{text, user: caller}`, save, and answer the
comments of the in-memory document without populating authors. -/
def commentHandlerSecond (photos : List Photo)
    (pid callerId newCommentId : Nat) (text : String) :
    Resp (List RespComment) × List Photo :=
  match findPhoto photos pid with
  | none => (.err 404 "Photo not found", photos)
  | some photo =>
    let photo' := { photo with
      comments := photo.comments ++ [{ id := newCommentId, text := text,
                                       user := callerId }] }
    (.ok (photo'.comments.map (fun c =>
        { id := c.id, text := c.text, user := RespUser.raw c.user })),
     replacePhoto photos photo')

/-- `DELETE /photos/:photoId/comment/:commentId` (lines 221-238): 404 if
the photo or the comment is absent, 403 if the caller is not the comment's
author, otherwise remove the subdocument and save. -/
def deleteCommentHandler (photos : List Photo)
    (photoId commentId callerId : Nat) : Resp String × List Photo :=
  match findPhoto photos photoId with
  | none => (.err 404 "Photo not found", photos)
  | some photo =>
    match photo.comments.find? (fun c => c.id == commentId) with
    | none => (.err 404 "Comment not found", photos)
    | some comment =>
      if comment.user ≠ callerId then
        (.err 403 "Not allowed", photos)
      else
        let photo' := { photo with
          comments := photo.comments.filter (fun c => c.id != commentId) }
        (.ok "Comment deleted", replacePhoto photos photo')

/-- Which handler body a route resolves to. -/
inductive HandlerTag where
  | signup
  | login
  | upload
  | listPhotos
  | commentFirst
  | putDescription
  | likeToggle
  | commentSecond
  | removeComment
  | removePhoto
deriving Repr, DecidableEq

/-- The route table in source registration order (src/api/index.js lines
96-252): method, path pattern, handler. -/
def routes : List (String × String × HandlerTag) :=
  [("POST", "/signup", .signup),
   ("POST", "/login", .login),
   ("POST", "/upload", .upload),
   ("GET", "/photos", .listPhotos),
   ("POST", "/photos/:id/comment", .commentFirst),
   ("PUT", "/photos/:id/description", .putDescription),
   ("POST", "/photos/:id/like", .likeToggle),
   ("POST", "/photos/:id/comment", .commentSecond),
   ("DELETE", "/photos/:photoId/comment/:commentId", .removeComment),
   ("DELETE", "/photos/:id", .removePhoto)]

/-- Express dispatch: a request is handled by the first registered route
matching its method and path (none of these handlers calls `next()`). -/
def dispatch (method path : String) : Option HandlerTag :=
  (routes.find? (fun r => r.1 == method && r.2.1 == path)).map (fun r => r.2.2)

/-! ### Concrete fixtures used by the witnesses and counterexamples -/

/-- One registered user, as signup would store them. -/
def demoUser : User :=
  { id := 1, username := "alice", email := "a@x.com", password := bcryptHash "pw" }

/-- A one-user store. -/
def demoUsers : List User := [demoUser]

/-- One stored photo owned by user 1, liked by users 1 and 2, with one
comment authored by user 2. -/
def demoPhoto : Photo :=
  { id := 10, url := "http://u", description := "d", user := 1,
    likes := [1, 2], comments := [{ id := 100, text := "hi", user := 2 }] }

/-- A one-photo store. -/
def demoPhotos : List Photo := [demoPhoto]

/-! ### Helper lemmas about the store operations -/

theorem filter_ne_of_not_mem (l : List Nat) (a : Nat) (h : a ∉ l) :
    l.filter (fun v => v != a) = l := by
  rw [List.filter_eq_self]
  intro b hb
  simp only [bne_iff_ne, ne_eq, decide_eq_true_eq]
  intro hba
  exact h (hba ▸ hb)

theorem perm_filter_append_of_mem (l : List Nat) (a : Nat) (hm : a ∈ l)
    (hnd : l.Nodup) : (l.filter (fun v => v != a) ++ [a]).Perm l := by
  induction l with
  | nil => cases hm
  | cons b t ih =>
    rw [List.nodup_cons] at hnd
    rcases List.mem_cons.mp hm with hba | hat
    · subst hba
      rw [List.filter_cons_of_neg (by simp), filter_ne_of_not_mem t a hnd.1]
      exact List.perm_append_singleton a t
    · have hba : b ≠ a := fun h => hnd.1 (h ▸ hat)
      rw [List.filter_cons_of_pos (by simp [hba])]
      exact List.Perm.cons b (ih hat hnd.2)

theorem contains_iff (l : List Nat) (a : Nat) : l.contains a = true ↔ a ∈ l := by
  simp [List.contains, List.elem_iff]

theorem toggleLike_eq_filter (l : List Nat) (a : Nat) (hm : a ∈ l) :
    toggleLike l a = l.filter (fun v => v != a) := by
  unfold toggleLike
  rw [if_pos ((contains_iff l a).mpr hm)]

theorem toggleLike_eq_append (l : List Nat) (a : Nat) (hm : a ∉ l) :
    toggleLike l a = l ++ [a] := by
  unfold toggleLike
  rw [if_neg (fun h => hm ((contains_iff l a).mp h))]

theorem toggleLike_toggleLike_perm (l : List Nat) (a : Nat) (hnd : l.Nodup) :
    (toggleLike (toggleLike l a) a).Perm l := by
  by_cases hm : a ∈ l
  · have hnotmem : a ∉ l.filter (fun v => v != a) := by
      simp [List.mem_filter]
    rw [toggleLike_eq_filter l a hm,
        toggleLike_eq_append (l.filter (fun v => v != a)) a hnotmem]
    exact perm_filter_append_of_mem l a hm hnd
  · rw [toggleLike_eq_append l a hm,
        toggleLike_eq_filter (l ++ [a]) a (by simp),
        List.filter_append, filter_ne_of_not_mem l a hm]
    simp

theorem toggleLike_nodup (l : List Nat) (a : Nat) (hnd : l.Nodup) :
    (toggleLike l a).Nodup := by
  by_cases hm : a ∈ l
  · rw [toggleLike_eq_filter l a hm]
    exact hnd.filter _
  · rw [toggleLike_eq_append l a hm, List.nodup_append]
    refine ⟨hnd, List.nodup_singleton a, ?_⟩
    intro x hx hx2
    simp only [List.mem_singleton] at hx2
    subst hx2
    exact hm hx

theorem findPhoto_filter_ne (photos : List Photo) (pid : Nat) :
    findPhoto (photos.filter (fun q => q.id != pid)) pid = none := by
  unfold findPhoto
  rw [List.find?_eq_none]
  intro x hx
  have hne := (List.mem_filter.mp hx).2
  simp only [bne_iff_ne, ne_eq, decide_eq_true_eq] at hne
  simp [hne]

theorem mem_replacePhoto {photos : List Photo} {p' q : Photo}
    (h : q ∈ replacePhoto photos p') : q = p' ∨ q ∈ photos := by
  unfold replacePhoto at h
  rcases List.mem_map.mp h with ⟨r, hr, hq⟩
  by_cases hid : (r.id == p'.id) = true
  · rw [if_pos hid] at hq
    exact Or.inl hq.symm
  · rw [if_neg hid] at hq
    exact Or.inr (hq ▸ hr)

/-! ### Claim theorems -/

/-- C1: for `PUT /photos/:id/description` and `DELETE /photos/:id`, an
absent photo yields NotFound (404) with the store unchanged, a caller other
than the owner yields Forbidden (403) with the store unchanged, and only
the owner's request performs the mutation. -/
theorem C1_owner_only_mutation (photos : List Photo) (pid callerId : Nat)
    (txt : String) :
    (findPhoto photos pid = none →
      updateDescription photos pid callerId txt =
        (.err 404 "Photo not found", photos) ∧
      deletePhoto photos pid callerId = (.err 404 "Photo not found", photos)) ∧
    (∀ p, findPhoto photos pid = some p → p.user ≠ callerId →
      updateDescription photos pid callerId txt =
        (.err 403 "Not allowed", photos) ∧
      deletePhoto photos pid callerId = (.err 403 "Not allowed", photos)) ∧
    (∀ p, findPhoto photos pid = some p → p.user = callerId →
      updateDescription photos pid callerId txt =
        (.ok { p with description := txt },
         replacePhoto photos { p with description := txt }) ∧
      deletePhoto photos pid callerId =
        (.ok "Photo deleted", photos.filter (fun q => q.id != pid))) := by
  refine ⟨?_, ?_, ?_⟩
  · intro hnone
    exact ⟨by simp [updateDescription, hnone], by simp [deletePhoto, hnone]⟩
  · intro p hfind hne
    exact ⟨by simp [updateDescription, hfind, hne],
           by simp [deletePhoto, hfind, hne]⟩
  · intro p hfind howner
    exact ⟨by simp [updateDescription, hfind, howner],
           by simp [deletePhoto, hfind, howner]⟩

/-- Witness for C1 on the concrete store: photo 99 is absent (404), user 2
is not the owner of photo 10 (403, store unchanged), and owner 1 deletes
photo 10. -/
theorem C1_owner_only_mutation_witness :
    updateDescription demoPhotos 99 1 "x" =
      (.err 404 "Photo not found", demoPhotos) ∧
    deletePhoto demoPhotos 10 2 = (.err 403 "Not allowed", demoPhotos) ∧
    deletePhoto demoPhotos 10 1 =
      (.ok "Photo deleted", demoPhotos.filter (fun q => q.id != 10)) :=
  ⟨((C1_owner_only_mutation demoPhotos 99 1 "x").1 (by decide)).1,
   ((C1_owner_only_mutation demoPhotos 10 2 "x").2.1 demoPhoto
      (by decide) (by decide)).2,
   ((C1_owner_only_mutation demoPhotos 10 1 "x").2.2 demoPhoto
      (by decide) (by decide)).2⟩

/-- C2: `POST /photos/:id/like` toggles the caller in the likes of an
existing photo (removes when present, appends when absent), answers the
resulting like count, and toggling twice restores the like set (up to
permutation) and the like count. -/
theorem C2_like_toggle_roundtrip (photos : List Photo) (pid callerId : Nat)
    (p : Photo) (hfind : findPhoto photos pid = some p)
    (hnd : p.likes.Nodup) :
    likeHandler photos pid callerId =
      (.ok (toggleLike p.likes callerId).length,
       replacePhoto photos { p with likes := toggleLike p.likes callerId }) ∧
    (callerId ∈ p.likes →
      toggleLike p.likes callerId = p.likes.filter (fun v => v != callerId)) ∧
    (callerId ∉ p.likes →
      toggleLike p.likes callerId = p.likes ++ [callerId]) ∧
    (toggleLike (toggleLike p.likes callerId) callerId).Perm p.likes ∧
    (toggleLike (toggleLike p.likes callerId) callerId).length =
      p.likes.length := by
  refine ⟨by simp [likeHandler, hfind], ?_, ?_, ?_, ?_⟩
  · exact toggleLike_eq_filter p.likes callerId
  · exact toggleLike_eq_append p.likes callerId
  · exact toggleLike_toggleLike_perm p.likes callerId hnd
  · exact (toggleLike_toggleLike_perm p.likes callerId hnd).length_eq

/-- Witness for C2 on the concrete store: user 1 already likes photo 10,
so the toggle removes them and answers count 1; a double toggle restores
the like list up to permutation. -/
theorem C2_like_toggle_roundtrip_witness :
    likeHandler demoPhotos 10 1 =
      (.ok (toggleLike demoPhoto.likes 1).length,
       replacePhoto demoPhotos { demoPhoto with likes := toggleLike demoPhoto.likes 1 }) ∧
    (toggleLike (toggleLike demoPhoto.likes 1) 1).Perm demoPhoto.likes :=
  ⟨(C2_like_toggle_roundtrip demoPhotos 10 1 demoPhoto (by decide) (by decide)).1,
   (C2_like_toggle_roundtrip demoPhotos 10 1 demoPhoto (by decide) (by decide)).2.2.2.1⟩

/-- C3: when the owner deletes a photo, the photo document (with its
embedded comments) leaves the store, and a later
`DELETE /photos/:photoId/comment/:commentId` for any comment of the deleted
photo fails with NotFound (404). -/
theorem C3_cascade_delete (photos : List Photo) (pid callerId : Nat)
    (p : Photo) (hfind : findPhoto photos pid = some p)
    (howner : p.user = callerId) :
    (deletePhoto photos pid callerId).1 = .ok "Photo deleted" ∧
    ∀ c ∈ p.comments, ∀ caller2 : Nat,
      deleteCommentHandler (deletePhoto photos pid callerId).2 pid c.id caller2 =
        (.err 404 "Photo not found", (deletePhoto photos pid callerId).2) := by
  have hdel : deletePhoto photos pid callerId =
      (.ok "Photo deleted", photos.filter (fun q => q.id != pid)) := by
    simp [deletePhoto, hfind, howner]
  refine ⟨by rw [hdel], ?_⟩
  intro c _ caller2
  rw [hdel]
  simp [deleteCommentHandler, findPhoto_filter_ne]

/-- Witness for C3 on the concrete store: owner 1 deletes photo 10; the
subsequent deletion of its embedded comment 100 by its author answers
404. -/
theorem C3_cascade_delete_witness :
    deleteCommentHandler (deletePhoto demoPhotos 10 1).2 10 100 2 =
      (.err 404 "Photo not found", (deletePhoto demoPhotos 10 1).2) :=
  (C3_cascade_delete demoPhotos 10 1 demoPhoto (by decide) (by decide)).2
    { id := 100, text := "hi", user := 2 } (by decide) 2

/-- C4: a first signup with a fresh email succeeds and stores the user
record (username, email, password hash); a second signup with the same
email fails with DuplicateEmail and leaves the store, hence the first
record, unchanged. -/
theorem C4_duplicate_email (users : List User) (newId1 newId2 : Nat)
    (un1 un2 email pw1 pw2 : String)
    (hfresh : ∀ v ∈ users, v.email ≠ email) :
    (signupHandler users newId1 un1 email pw1).1 = .ok "User registered" ∧
    ({ id := newId1, username := un1, email := email,
       password := bcryptHash pw1 } : User) ∈
      (signupHandler users newId1 un1 email pw1).2 ∧
    signupHandler (signupHandler users newId1 un1 email pw1).2
        newId2 un2 email pw2 =
      (.err 500 "DuplicateEmail",
       (signupHandler users newId1 un1 email pw1).2) := by
  have hany : users.any (fun v => v.email == email) = false := by
    rw [List.any_eq_false]
    intro v hv
    simp [hfresh v hv]
  have h1 : signupHandler users newId1 un1 email pw1 =
      (.ok "User registered",
       users ++ [{ id := newId1, username := un1, email := email,
                   password := bcryptHash pw1 }]) := by
    simp [signupHandler, saveUser, hany]
  rw [h1]
  refine ⟨rfl, by simp, ?_⟩
  simp [signupHandler, saveUser]

/-- Witness for C4 starting from the empty store: registering alice then
bob under the same email makes the second call fail with DuplicateEmail
and keeps the store of the first call. -/
theorem C4_duplicate_email_witness :
    signupHandler (signupHandler [] 1 "alice" "a@x.com" "pw").2
        2 "bob" "a@x.com" "pw2" =
      (.err 500 "DuplicateEmail", (signupHandler [] 1 "alice" "a@x.com" "pw").2) :=
  (C4_duplicate_email [] 1 2 "alice" "bob" "a@x.com" "pw" "pw2"
    (fun v hv => absurd hv (List.not_mem_nil v))).2.2

/-- C5 counterexample: on the concrete store holding only alice, a wrong
password against her email answers `Invalid credentials` while an unknown
email answers `User not found`: both are status 400 but the two responses
differ, so the caller can distinguish whether the email exists, contrary
to the claim. -/
theorem C5_counterexample :
    loginHandler demoUsers "a@x.com" "wrong" "s" 0 =
      .err 400 "Invalid credentials" ∧
    loginHandler demoUsers "b@x.com" "wrong" "s" 0 =
      .err 400 "User not found" ∧
    loginHandler demoUsers "a@x.com" "wrong" "s" 0 ≠
      loginHandler demoUsers "b@x.com" "wrong" "s" 0 := by
  decide

/-- C5 amended: a login that does not verify fails with status 400 in both
cases, but the message distinguishes them: `User not found` when no user
has the email, `Invalid credentials` when the user exists and the hash
comparison fails. -/
theorem C5_login_failure_messages (users : List User)
    (email pw secret : String) (now : Nat) :
    (users.find? (fun u => u.email == email) = none →
      loginHandler users email pw secret now = .err 400 "User not found") ∧
    (∀ u, users.find? (fun v => v.email == email) = some u →
      bcryptCompare pw u.password = false →
      loginHandler users email pw secret now =
        .err 400 "Invalid credentials") := by
  constructor
  · intro hnone
    simp [loginHandler, hnone]
  · intro u hfind hcmp
    simp [loginHandler, hfind, hcmp]

/-- Witness for the amended C5 on the concrete store. -/
theorem C5_login_failure_messages_witness :
    loginHandler demoUsers "b@x.com" "pw" "s" 0 = .err 400 "User not found" ∧
    loginHandler demoUsers "a@x.com" "wrong" "s" 0 =
      .err 400 "Invalid credentials" :=
  ⟨(C5_login_failure_messages demoUsers "b@x.com" "pw" "s" 0).1 (by decide),
   (C5_login_failure_messages demoUsers "a@x.com" "wrong" "s" 0).2 demoUser
     (by decide) (by decide)⟩

/-- C6: a login with correct credentials answers a token signed over the
user's id with the server secret and a 2-hour (7200 s) expiry, and the
auth middleware accepts that token before expiry and recovers exactly the
original userId. -/
theorem C6_token_roundtrip (users : List User) (email pw secret : String)
    (now now2 : Nat) (u : User)
    (hfind : users.find? (fun v => v.email == email) = some u)
    (hpw : u.password = bcryptHash pw) (hnow : now2 < now + 7200) :
    loginHandler users email pw secret now =
      .ok (jwtSign u.id secret now) u.id u.username ∧
    (jwtSign u.id secret now).exp = now + 7200 ∧
    authMiddleware (some (.bare (jwtSign u.id secret now))) secret now2 =
      .authorized u.id := by
  refine ⟨?_, rfl, ?_⟩
  · simp [loginHandler, hfind, bcryptCompare, hpw]
  · simp [authMiddleware, jwtVerify, jwtSign, hnow]

/-- Witness for C6 on the concrete store: alice logs in at time 0 and the
middleware accepts her token at time 100, recovering userId 1. -/
theorem C6_token_roundtrip_witness :
    loginHandler demoUsers "a@x.com" "pw" "s" 0 =
      .ok (jwtSign 1 "s" 0) 1 "alice" ∧
    authMiddleware (some (.bare (jwtSign 1 "s" 0))) "s" 100 = .authorized 1 :=
  ⟨(C6_token_roundtrip demoUsers "a@x.com" "pw" "s" 0 100 demoUser
      (by decide) (by decide) (by decide)).1,
   (C6_token_roundtrip demoUsers "a@x.com" "pw" "s" 0 100 demoUser
      (by decide) (by decide) (by decide)).2.2⟩

/-- C7: `POST /upload` answers 500 and persists nothing when the
cloudinary upload fails; a photo is persisted only on a successful upload,
and its `url` is exactly the URL the upload returned. -/
theorem C7_upload_atomicity (photos : List Photo) (callerId newId : Nat)
    (description : Option String) :
    (∀ e, uploadHandler photos (.error e) callerId newId description =
      (.err 500 e, photos)) ∧
    (∀ url,
      (uploadHandler photos (.ok url) callerId newId description).2 =
        photos ++ [{ id := newId, url := url,
                     description := description.getD "", user := callerId,
                     likes := [], comments := [] }] ∧
      ∀ p, (uploadHandler photos (.ok url) callerId newId description).1 =
          .ok p → p.url = url) := by
  refine ⟨fun e => rfl, fun url => ⟨rfl, ?_⟩⟩
  intro p hp
  have hp' : ({ id := newId, url := url, description := description.getD "",
                user := callerId, likes := [], comments := [] } : Photo) = p := by
    exact Resp.ok.inj hp
  rw [← hp']

/-- Witness for C7 on the concrete store: a failed upload leaves the store
unchanged; a successful one appends a photo carrying the returned URL. -/
theorem C7_upload_atomicity_witness :
    uploadHandler demoPhotos (.error "network down") 1 77 none =
      (.err 500 "network down", demoPhotos) ∧
    (uploadHandler demoPhotos (.ok "http://img") 1 77 none).2 =
      demoPhotos ++ [{ id := 77, url := "http://img", description := "",
                       user := 1, likes := [], comments := [] }] ∧
    ({ id := 77, url := "http://img", description := "", user := 1,
       likes := [], comments := [] } : Photo).url = "http://img" :=
  ⟨(C7_upload_atomicity demoPhotos 1 77 none).1 "network down",
   ((C7_upload_atomicity demoPhotos 1 77 none).2 "http://img").1,
   ((C7_upload_atomicity demoPhotos 1 77 none).2 "http://img").2
     { id := 77, url := "http://img", description := "", user := 1,
       likes := [], comments := [] } rfl⟩

/-- C8: if every photo's likes list holds each user at most once, the like
endpoint preserves this for every photo in the resulting store; moreover
the toggle never leaves the toggling user present twice, since a user
already present is removed rather than added. -/
theorem C8_likes_at_most_once (photos : List Photo) (pid callerId : Nat)
    (hinv : ∀ p ∈ photos, p.likes.Nodup) :
    (∀ q ∈ (likeHandler photos pid callerId).2, q.likes.Nodup) ∧
    (∀ p ∈ photos, callerId ∈ p.likes →
      callerId ∉ toggleLike p.likes callerId) := by
  have hsecond : ∀ p ∈ photos, callerId ∈ p.likes →
      callerId ∉ toggleLike p.likes callerId := by
    intro p _ hm
    rw [toggleLike_eq_filter p.likes callerId hm]
    simp [List.mem_filter]
  refine ⟨?_, hsecond⟩
  cases hfind : findPhoto photos pid with
  | none =>
    have h2 : (likeHandler photos pid callerId).2 = photos := by
      simp [likeHandler, hfind]
    rw [h2]
    exact hinv
  | some p =>
    have h2 : (likeHandler photos pid callerId).2 =
        replacePhoto photos { p with likes := toggleLike p.likes callerId } := by
      simp [likeHandler, hfind]
    rw [h2]
    intro q hq
    rcases mem_replacePhoto hq with hq' | hq'
    · rw [hq']
      exact toggleLike_nodup p.likes callerId
        (hinv p (List.mem_of_find?_eq_some hfind))
    · exact hinv q hq'

/-- Witness for C8 on the concrete store: toggling user 1 on photo 10
leaves them absent from the likes, and the updated photo's likes list is
still duplicate-free. -/
theorem C8_likes_at_most_once_witness :
    (1 : Nat) ∉ toggleLike demoPhoto.likes 1 ∧
    ({ demoPhoto with likes := toggleLike demoPhoto.likes 1 } : Photo).likes.Nodup :=
  ⟨(C8_likes_at_most_once demoPhotos 10 1 (by decide)).2 demoPhoto
     (by decide) (by decide),
   (C8_likes_at_most_once demoPhotos 10 1 (by decide)).1
     { demoPhoto with likes := toggleLike demoPhoto.likes 1 } (by decide)⟩

/-- C9 counterexample: on the concrete store, Express dispatches
`POST /photos/:id/comment` to the FIRST registration, not the second, and
the two registered handlers are observably different: the first answers
comments with populated author usernames, the second with raw author ids.
So neither "the second shadows the first" nor "observable behavior equals
that of either handler" holds. -/
theorem C9_counterexample :
    dispatch "POST" "/photos/:id/comment" = some HandlerTag.commentFirst ∧
    dispatch "POST" "/photos/:id/comment" ≠ some HandlerTag.commentSecond ∧
    commentHandlerFirst demoUsers demoPhotos 10 1 5 "hey" ≠
      commentHandlerSecond demoPhotos 10 1 5 "hey" := by
  refine ⟨by decide, by decide, ?_⟩
  decide

/-- C9 amended: the comment-creation endpoint is registered twice; Express
dispatches to the first registration (the second is shadowed dead code);
both registrations perform the identical store mutation, so only the
response shape (populated versus raw comment authors) differs. -/
theorem C9_first_registration_wins (users : List User) (photos : List Photo)
    (pid callerId newCommentId : Nat) (text : String) :
    dispatch "POST" "/photos/:id/comment" = some HandlerTag.commentFirst ∧
    (commentHandlerFirst users photos pid callerId newCommentId text).2 =
      (commentHandlerSecond photos pid callerId newCommentId text).2 := by
  refine ⟨by decide, ?_⟩
  cases hfind : findPhoto photos pid with
  | none => simp [commentHandlerFirst, commentHandlerSecond, hfind]
  | some p =>
    simp only [commentHandlerFirst, commentHandlerSecond, hfind]
    cases findPhoto
        (replacePhoto photos
          { p with comments := p.comments ++
              [{ id := newCommentId, text := text, user := callerId }] })
        pid with
    | none => rfl
    | some updated => rfl

/-- C10: the auth middleware passes the raw `authorization` header to
token verification: a missing header answers 401, a header carrying
`"Bearer " ++ token` answers 403 `Invalid token`, and only the bare token
(with the right secret, before expiry) is accepted. -/
theorem C10_bearer_prefix_rejected (secret : String) (now : Nat) (t : Token) :
    authMiddleware none secret now = .denied 401 "No token" ∧
    authMiddleware (some (.bearerPrefixed t)) secret now =
      .denied 403 "Invalid token" ∧
    (t.secret = secret → now < t.exp →
      authMiddleware (some (.bare t)) secret now = .authorized t.payloadId) := by
  refine ⟨rfl, rfl, ?_⟩
  intro hs hexp
  simp [authMiddleware, jwtVerify, hs, hexp]

/-- Witness for C10: a token issued at time 0 with secret `s` is accepted
bare at time 5, rejected with 403 when presented with a Bearer prefix, and
a missing header answers 401. -/
theorem C10_bearer_prefix_rejected_witness :
    authMiddleware none "s" 5 = .denied 401 "No token" ∧
    authMiddleware (some (.bearerPrefixed (jwtSign 1 "s" 0))) "s" 5 =
      .denied 403 "Invalid token" ∧
    authMiddleware (some (.bare (jwtSign 1 "s" 0))) "s" 5 = .authorized 1 :=
  ⟨(C10_bearer_prefix_rejected "s" 5 (jwtSign 1 "s" 0)).1,
   (C10_bearer_prefix_rejected "s" 5 (jwtSign 1 "s" 0)).2.1,
   (C10_bearer_prefix_rejected "s" 5 (jwtSign 1 "s" 0)).2.2 rfl (by decide)⟩

end SmartGallery
